import Mathlib

/-!
Shallow embedding of the core logic of the Radarr Raycast extension:
instance configuration resolution (static preference variant), default
selection, field validation, the persisted current-instance override,
availability classification, queue-item progress and time-left
formatting, and the add-movie / test-connection HTTP contracts.

Conventions of the embedding:
* JavaScript string falsiness (null / undefined / empty string) is
  modelled with Option String, where both none and some "" are falsy.
* Timestamps (JS Date values) are epoch milliseconds as Int.
* Functions that throw in TypeScript return Except String.
* LocalStorage is a single slot, modelled as Option StoredValue threaded
  explicitly through the stateful operations.
-/

/-- One configured Radarr server, as produced by the configuration
resolver in src/config.ts. -/
structure RadarrInstance where
  name : String
  url : String
  apiKey : String
  isDefault : Bool
deriving Repr, DecidableEq

/-- URL normalization used by the resolver: the JS expression
url.replace with the pattern of one slash anchored at the end removes a
single trailing slash when present (src/config.ts line 25); modelled on
the character list underlying the string. -/
def stripTrailingSlash (s : String) : String :=
  if s.data.getLast? = some '/' then String.mk s.data.dropLast else s

/-- JS String.prototype.trim: whitespace removed from both ends,
modelled on the character list underlying the string. -/
def jsTrim (s : String) : String :=
  String.mk (((s.data.dropWhile Char.isWhitespace).reverse.dropWhile Char.isWhitespace).reverse)

/-- Raw Raycast preferences for the static (dual-slot) configuration
variant (src/config.ts lines 4-12). Optional fields are Option; a JS
falsy string is none or some "". -/
structure Preferences where
  primaryInstanceName : String
  primaryInstanceUrl : String
  primaryInstanceApiKey : String
  enableSecondaryInstance : Option Bool
  secondaryInstanceName : Option String
  secondaryInstanceUrl : Option String
  secondaryInstanceApiKey : Option String
deriving Repr, DecidableEq

/-- JS truthiness of an optional string preference field. -/
def optTruthy (o : Option String) : Bool :=
  match o with
  | none => false
  | some s => s != ""

/-- JS truthiness of the optional secondary-instance checkbox. -/
def boolTruthy (o : Option Bool) : Bool := o.getD false

/-- The primary instance pushed by the resolver (src/config.ts lines
23-28): trailing slash stripped, always marked default. -/
def primaryOf (p : Preferences) : RadarrInstance :=
  { name := p.primaryInstanceName
    url := stripTrailingSlash p.primaryInstanceUrl
    apiKey := p.primaryInstanceApiKey
    isDefault := true }

/-- Static-variant resolver getRadarrInstances (src/config.ts lines
14-46): throws when any primary field is falsy; appends the secondary
instance only when the enable flag and all three secondary fields are
truthy. -/
def getRadarrInstances (p : Preferences) : Except String (List RadarrInstance) :=
  if p.primaryInstanceName == "" || p.primaryInstanceUrl == "" || p.primaryInstanceApiKey == "" then
    Except.error "Primary Radarr instance configuration is incomplete"
  else if boolTruthy p.enableSecondaryInstance && optTruthy p.secondaryInstanceName
      && optTruthy p.secondaryInstanceUrl && optTruthy p.secondaryInstanceApiKey then
    Except.ok [primaryOf p,
      { name := p.secondaryInstanceName.getD ""
        url := stripTrailingSlash (p.secondaryInstanceUrl.getD "")
        apiKey := p.secondaryInstanceApiKey.getD ""
        isDefault := false }]
  else
    Except.ok [primaryOf p]

/-- getDefaultRadarrInstance (src/config.ts lines 48-61), abstracted
over the already-resolved instance list: first entry marked default,
else first entry, else an error. -/
def getDefaultRadarrInstance (instances : List RadarrInstance) : Except String RadarrInstance :=
  match instances.find? (fun i => i.isDefault) with
  | some d => Except.ok d
  | none =>
    match instances with
    | [] => Except.error "No Radarr instances configured"
    | x :: _ => Except.ok x

/-- validateRadarrInstance (src/config.ts lines 63-81); the URL
constructor check is abstracted as the oracle urlValid. -/
def validateRadarrInstance (urlValid : String → Bool) (i : RadarrInstance) :
    Except String Unit :=
  if jsTrim i.name == "" then Except.error "Instance name cannot be empty"
  else if jsTrim i.url == "" then Except.error "Instance URL cannot be empty"
  else if jsTrim i.apiKey == "" then Except.error "Instance API key cannot be empty"
  else if urlValid i.url then Except.ok ()
  else Except.error "Instance URL is not valid"

/-- Contents of the LocalStorage slot holding the persisted override:
either JSON that parses back to an instance, or garbage that fails to
parse. -/
inductive StoredValue where
  | parsed (i : RadarrInstance)
  | garbage (s : String)
deriving Repr, DecidableEq

/-- The single LocalStorage slot (key selectedRadarrInstance). -/
abbrev Store := Option StoredValue

/-- Membership test used by getCurrentInstance (src/instance-manager.ts
lines 22-24): an instance matches by name and url equality. -/
def instanceMatches (config : List RadarrInstance) (sel : RadarrInstance) : Bool :=
  config.any (fun i => i.name == sel.name && i.url == sel.url)

/-- Modelled from the spec: getActiveRadarrInstance is imported from
config by src/instance-manager.ts but its definition is not among the
provided sources; spec section 4.2 step 5 specifies the fall-through as
the resolver default, resolve followed by getDefault, so it is the
default-selection function applied to the resolved list. -/
def getActiveRadarrInstance (config : List RadarrInstance) : Except String RadarrInstance :=
  getDefaultRadarrInstance config

/-- getCurrentInstance (src/instance-manager.ts lines 12-40), with the
freshly resolved configuration list and the storage slot made explicit;
returns the chosen instance together with the slot after any deletion
side effect. -/
def getCurrentInstance (config : List RadarrInstance) (store : Store) :
    Except String RadarrInstance × Store :=
  match store with
  | some (StoredValue.parsed sel) =>
    if instanceMatches config sel then
      (Except.ok sel, some (StoredValue.parsed sel))
    else
      (getActiveRadarrInstance config, none)
  | some (StoredValue.garbage _) => (getActiveRadarrInstance config, none)
  | none => (getActiveRadarrInstance config, none)

/-- setCurrentInstance (src/instance-manager.ts lines 45-47):
unconditionally overwrites the slot with the serialized instance. -/
def setCurrentInstance (i : RadarrInstance) (_ : Store) : Store :=
  some (StoredValue.parsed i)

/-- The movie fields read by the formatters and by the add-movie
response. Release dates are epoch milliseconds; none covers a
null/undefined/empty date. The id is none for a record the server never
assigned one to. -/
structure Movie where
  id : Option Int
  inCinemas : Option Int
  digitalRelease : Option Int
  physicalRelease : Option Int
  monitored : Bool
  hasFile : Bool
deriving Repr, DecidableEq

/-- The release date chosen by the JS expression
inCinemas or digitalRelease or physicalRelease: first truthy in that
precedence order (src/instance-manager.ts lines 110 and 355). -/
def releaseDateOf (m : Movie) : Option Int :=
  match m.inCinemas with
  | some d => some d
  | none =>
    match m.digitalRelease with
    | some d => some d
    | none => m.physicalRelease

/-- getAvailabilityStatus of the missing-movies list view
(src/instance-manager.ts lines 104-125): subdivides the past-release
case by days since release. -/
def getAvailabilityStatusList (now : Int) (m : Movie) : String :=
  match releaseDateOf m with
  | none => "Not Released"
  | some d =>
    if d > now then "Upcoming"
    else
      let daysSinceRelease := (now - d) / 86400000
      if daysSinceRelease < 30 then "Recent"
      else if daysSinceRelease < 90 then "Available"
      else "Long Available"

/-- getAvailabilityStatus of the missing-movies grid view
(src/instance-manager.ts lines 349-363): every past release is
Missing. -/
def getAvailabilityStatusGrid (now : Int) (m : Movie) : String :=
  match releaseDateOf m with
  | none => "Not Released"
  | some d => if d > now then "Upcoming" else "Missing"

/-- JS Math.round, over exact rationals: floor of the argument plus one
half. -/
def jsRound (q : ℚ) : Int := ⌊q + 1 / 2⌋

/-- The percentage computed by formatProgress (src/config.ts line
151): round of downloaded divided by size times 100, over exact
rationals. -/
def progressPercentage (size sizeleft : Int) : Int :=
  jsRound ((size - sizeleft : ℚ) / (size : ℚ) * 100)

/-- formatProgress of the download-queue view (src/config.ts lines
147-154), abstracted over the byte formatter formatFileSize (whose
source file is not part of the core under verification). -/
def formatProgress (fmt : Int → String) (size sizeleft : Int) : String :=
  if size == 0 then "Unknown size"
  else
    let downloaded := size - sizeleft
    let percentage := progressPercentage size sizeleft
    s!"{fmt downloaded} / {fmt size} ({percentage}%)"

/-- The part of getTimeLeft after the server-supplied string is
rejected (src/config.ts lines 161-173): derive from the estimated
completion timestamp when strictly in the future, else Unknown. -/
def timeLeftFallback (now : Int) (estimatedCompletionTime : Option Int) : String :=
  match estimatedCompletionTime with
  | some c =>
    let diffMs := c - now
    if diffMs > 0 then
      let hours := diffMs / 3600000
      let minutes := diffMs % 3600000 / 60000
      s!"{hours}h {minutes}m"
    else "Unknown"
  | none => "Unknown"

/-- getTimeLeft of the download-queue view (src/config.ts lines
156-174): a truthy server-supplied timeleft string other than the
literal zero-duration sentinel wins. -/
def getTimeLeft (now : Int) (timeleft : Option String)
    (estimatedCompletionTime : Option Int) : String :=
  match timeleft with
  | some t =>
    if t != "" && t != "00:00:00" then t
    else timeLeftFallback now estimatedCompletionTime
  | none => timeLeftFallback now estimatedCompletionTime

/-- An HTTP response as seen through fetch: status code and body
text. -/
structure HttpResponse where
  stat : Nat
  body : String
deriving Repr, DecidableEq

/-- The fetch response.ok flag: status in the 2xx range. -/
def responseOk (r : HttpResponse) : Bool :=
  200 ≤ r.stat && r.stat ≤ 299

/-- A search result candidate (descriptive fields copied into the
add-movie payload, src/hooks/useRadarrAPI.ts lines 126-147). The
repository types module is not among the provided sources; field types
are representative concrete shapes. -/
structure MovieLookup where
  title : String
  originalTitle : String
  sortTitle : String
  lookupStat : String
  overview : String
  inCinemas : Option Int
  images : List String
  website : String
  year : Int
  runtime : Int
  imdbId : Option String
  tmdbId : Int
  genres : List String
  ratings : List ℚ
deriving Repr, DecidableEq

/-- The POST body assembled by addMovie. -/
structure AddMoviePayload where
  title : String
  originalTitle : String
  sortTitle : String
  payloadStat : String
  overview : String
  inCinemas : Option Int
  images : List String
  website : String
  year : Int
  runtime : Int
  imdbId : Option String
  tmdbId : Int
  genres : List String
  ratings : List ℚ
  qualityProfileId : Int
  rootFolderPath : String
  monitored : Bool
  searchForMovie : Bool
deriving Repr, DecidableEq

/-- Payload assembly of addMovie (src/hooks/useRadarrAPI.ts lines
126-147): the lookup fields verbatim plus the four caller-supplied
placement parameters. -/
def payloadOf (m : MovieLookup) (qualityProfileId : Int) (rootFolderPath : String)
    (monitored searchOnAdd : Bool) : AddMoviePayload :=
  { title := m.title
    originalTitle := m.originalTitle
    sortTitle := m.sortTitle
    payloadStat := m.lookupStat
    overview := m.overview
    inCinemas := m.inCinemas
    images := m.images
    website := m.website
    year := m.year
    runtime := m.runtime
    imdbId := m.imdbId
    tmdbId := m.tmdbId
    genres := m.genres
    ratings := m.ratings
    qualityProfileId := qualityProfileId
    rootFolderPath := rootFolderPath
    monitored := monitored
    searchForMovie := searchOnAdd }

/-- addMovie (src/hooks/useRadarrAPI.ts lines 116-181), with the HTTP
transport abstracted as send and JSON decoding of the response body as
decode: a non-ok response throws the status and the response body text;
an ok response returns the decoded movie. -/
def addMovie (m : MovieLookup) (qualityProfileId : Int) (rootFolderPath : String)
    (monitored searchOnAdd : Bool) (send : AddMoviePayload → HttpResponse)
    (decode : String → Movie) : Except String Movie :=
  let response := send (payloadOf m qualityProfileId rootFolderPath monitored searchOnAdd)
  if responseOk response then Except.ok (decode response.body)
  else Except.error s!"HTTP {response.stat}: {response.body}"

/-- testConnection (src/hooks/useRadarrAPI.ts lines 213-227), with the
fetch outcome made explicit: ok carries a response, error a network
failure; the catch clause turns every failure into false. -/
def testConnection (fetchResult : Except String HttpResponse) : Bool :=
  match fetchResult with
  | Except.ok r => responseOk r
  | Except.error _ => false

/-! ## Concrete instances used by witnesses -/

/-- A sample default instance. -/
def instMain : RadarrInstance :=
  { name := "Main", url := "http://radarr.local:7878", apiKey := "key-a", isDefault := true }

/-- A sample non-default instance. -/
def instBackup : RadarrInstance :=
  { name := "Backup", url := "http://backup.local:7878", apiKey := "key-b", isDefault := false }

/-! ## Claims -/

/-- C1: after setCurrent(X), getCurrent() returns X when the freshly
resolved configuration contains an instance matching X by (name, url)
equality; when no such match exists, or when the persisted value fails
to parse, getCurrent() deletes the persisted override and returns the
configuration default obtained from the resolver. -/
theorem getCurrentInstance_after_setCurrentInstance
    (X : RadarrInstance) (config : List RadarrInstance) (store : Store) :
    (instanceMatches config X = true →
      getCurrentInstance config (setCurrentInstance X store)
        = (Except.ok X, some (StoredValue.parsed X))) ∧
    (instanceMatches config X = false →
      getCurrentInstance config (setCurrentInstance X store)
        = (getActiveRadarrInstance config, none)) ∧
    (∀ s, getCurrentInstance config (some (StoredValue.garbage s))
        = (getActiveRadarrInstance config, none)) := by
  refine ⟨fun h => ?_, fun h => ?_, fun s => rfl⟩ <;>
    simp [getCurrentInstance, setCurrentInstance, h]

/-- Witness for C1 at concrete inputs: the persisted choice survives
while configured, and is dropped with fallback to the resolver default
once the configuration loses it. -/
theorem getCurrentInstance_after_setCurrentInstance_witness :
    getCurrentInstance [instMain, instBackup] (setCurrentInstance instBackup none)
      = (Except.ok instBackup, some (StoredValue.parsed instBackup)) ∧
    getCurrentInstance [instMain] (setCurrentInstance instBackup none)
      = (getActiveRadarrInstance [instMain], none) :=
  ⟨(getCurrentInstance_after_setCurrentInstance instBackup [instMain, instBackup] none).1
      (by decide),
   (getCurrentInstance_after_setCurrentInstance instBackup [instMain] none).2.1
      (by decide)⟩

/-- C2: getDefault returns the first entry marked default when one
exists, else the first entry of the list, and fails with the
no-instances-configured error on the empty list; every successfully
returned instance is a member of the resolved list, and the choice is a
deterministic function of the list even when zero or several entries
are marked default. -/
theorem getDefaultRadarrInstance_spec (l : List RadarrInstance) :
    (∀ d, l.find? (fun i => i.isDefault) = some d →
      getDefaultRadarrInstance l = Except.ok d) ∧
    (l.find? (fun i => i.isDefault) = none → ∀ x xs, l = x :: xs →
      getDefaultRadarrInstance l = Except.ok x) ∧
    (l = [] → getDefaultRadarrInstance l = Except.error "No Radarr instances configured") ∧
    (∀ i, getDefaultRadarrInstance l = Except.ok i → i ∈ l) := by
  refine ⟨fun d hd => ?_, fun hn x xs hl => ?_, fun hl => ?_, fun i hi => ?_⟩
  · simp [getDefaultRadarrInstance, hd]
  · subst hl; simp [getDefaultRadarrInstance, hn]
  · subst hl; rfl
  · unfold getDefaultRadarrInstance at hi
    cases hfind : l.find? (fun j => j.isDefault) with
    | some d =>
      rw [hfind] at hi
      simp only [Except.ok.injEq] at hi
      exact hi ▸ List.mem_of_find?_eq_some hfind
    | none =>
      rw [hfind] at hi
      cases l with
      | nil => simp at hi
      | cons x xs =>
        simp only [Except.ok.injEq] at hi
        exact hi ▸ List.mem_cons_self x xs

/-- Witness for C2 at concrete inputs: with the default-marked entry in
second position it is chosen; with no entry marked default the first is
chosen; the empty list fails. -/
theorem getDefaultRadarrInstance_spec_witness :
    getDefaultRadarrInstance [instBackup, instMain] = Except.ok instMain ∧
    getDefaultRadarrInstance [instBackup] = Except.ok instBackup ∧
    instMain ∈ [instBackup, instMain] :=
  ⟨(getDefaultRadarrInstance_spec [instBackup, instMain]).1 instMain (by decide),
   (getDefaultRadarrInstance_spec [instBackup]).2.1 (by decide) instBackup [] rfl,
   (getDefaultRadarrInstance_spec [instBackup, instMain]).2.2.2 instMain
     ((getDefaultRadarrInstance_spec [instBackup, instMain]).1 instMain (by decide))⟩

/-- C3 counterexample: normalization strips only a single trailing
slash, so on a URL with two trailing slashes applying it twice differs
from applying it once — idempotence fails for more than one trailing
slash. -/
theorem stripTrailingSlash_not_idempotent :
    stripTrailingSlash (stripTrailingSlash "http://host//")
      ≠ stripTrailingSlash "http://host//" := by decide

/-- C3 amended: for every URL with exactly one trailing slash (its last
character is a slash and the character before it, if any, is not)
normalization applied twice equals normalization applied once. -/
theorem stripTrailingSlash_idempotent_single (s : String)
    (h1 : s.data.getLast? = some '/')
    (h2 : s.data.dropLast.getLast? ≠ some '/') :
    stripTrailingSlash (stripTrailingSlash s) = stripTrailingSlash s := by
  unfold stripTrailingSlash
  rw [if_pos h1]
  show (if (String.mk s.data.dropLast).data.getLast? = some '/'
      then String.mk (String.mk s.data.dropLast).data.dropLast
      else String.mk s.data.dropLast) = String.mk s.data.dropLast
  rw [if_neg h2]

/-- Witness for C3 amended at a concrete URL with one trailing
slash. -/
theorem stripTrailingSlash_idempotent_single_witness :
    stripTrailingSlash (stripTrailingSlash "http://host/")
      = stripTrailingSlash "http://host/" :=
  stripTrailingSlash_idempotent_single "http://host/" (by decide) (by decide)

/-- C4 counterexample: availability classification does not yield one
of exactly four statuses — the list-view classifier applied to a
monitored, file-less movie whose cinema release was ten days before now
yields Recent, which is none of Not Released, Upcoming, Missing,
Available. -/
theorem getAvailabilityStatus_counterexample :
    getAvailabilityStatusList 0
        { id := none, inCinemas := some (-864000000), digitalRelease := none,
          physicalRelease := none, monitored := true, hasFile := false } = "Recent" ∧
    ("Recent" : String) ≠ "Not Released" ∧ ("Recent" : String) ≠ "Upcoming" ∧
    ("Recent" : String) ≠ "Missing" ∧ ("Recent" : String) ≠ "Available" := by
  decide

/-- C4 amended: the grid-view classifier yields exactly one of three
statuses: all three release dates null gives Not Released; otherwise
the date chosen by cinema-over-digital-over-physical precedence
compared to now gives Upcoming when strictly in the future and Missing
otherwise, independent of monitored and hasFile; the list-view variant
subdivides the past-release case by whole days since release into
Recent (fewer than 30), Available (30 to 89) and Long Available (90 or
more). -/
theorem getAvailabilityStatus_spec (now : Int) (m : Movie) :
    (m.inCinemas = none → m.digitalRelease = none → m.physicalRelease = none →
      getAvailabilityStatusGrid now m = "Not Released") ∧
    (∀ d, m.inCinemas = some d → releaseDateOf m = some d) ∧
    (∀ d, releaseDateOf m = some d →
      (now < d → getAvailabilityStatusGrid now m = "Upcoming") ∧
      (d ≤ now → getAvailabilityStatusGrid now m = "Missing")) ∧
    (getAvailabilityStatusGrid now m = "Not Released" ∨
      getAvailabilityStatusGrid now m = "Upcoming" ∨
      getAvailabilityStatusGrid now m = "Missing") ∧
    (∀ d, releaseDateOf m = some d → d ≤ now →
      ((now - d) / 86400000 < 30 → getAvailabilityStatusList now m = "Recent") ∧
      (30 ≤ (now - d) / 86400000 → (now - d) / 86400000 < 90 →
        getAvailabilityStatusList now m = "Available") ∧
      (90 ≤ (now - d) / 86400000 → getAvailabilityStatusList now m = "Long Available")) := by
  refine ⟨fun h1 h2 h3 => ?_, fun d hd => ?_, fun d hd => ⟨fun hlt => ?_, fun hle => ?_⟩,
    ?_, fun d hd hle => ⟨fun hr => ?_, fun ha1 ha2 => ?_, fun hl => ?_⟩⟩
  · simp [getAvailabilityStatusGrid, releaseDateOf, h1, h2, h3]
  · simp [releaseDateOf, hd]
  · simp [getAvailabilityStatusGrid, hd, hlt]
  · simp [getAvailabilityStatusGrid, hd, not_lt.mpr hle]
  · unfold getAvailabilityStatusGrid
    cases hrd : releaseDateOf m with
    | none => simp
    | some d =>
      by_cases h : now < d
      · simp [h]
      · simp [h]
  · simp [getAvailabilityStatusList, hd, not_lt.mpr hle, hr]
  · simp [getAvailabilityStatusList, hd, not_lt.mpr hle, not_lt.mpr ha1, ha2]
  · have h30 : ¬(now - d) / 86400000 < 30 := by omega
    have h90 : ¬(now - d) / 86400000 < 90 := by omega
    simp [getAvailabilityStatusList, hd, not_lt.mpr hle, h30, h90]

/-- Witness for C4 amended at concrete inputs: cinema release yesterday
gives Missing, tomorrow gives Upcoming, no dates at all gives Not
Released. -/
theorem getAvailabilityStatus_spec_witness :
    getAvailabilityStatusGrid 0
        { id := none, inCinemas := some (-86400000), digitalRelease := none,
          physicalRelease := none, monitored := true, hasFile := false } = "Missing" ∧
    getAvailabilityStatusGrid 0
        { id := none, inCinemas := some 86400000, digitalRelease := none,
          physicalRelease := none, monitored := true, hasFile := false } = "Upcoming" ∧
    getAvailabilityStatusGrid 0
        { id := none, inCinemas := none, digitalRelease := none,
          physicalRelease := none, monitored := true, hasFile := false } = "Not Released" :=
  ⟨((getAvailabilityStatus_spec 0 _).2.2.1 (-86400000) (by decide)).2 (by decide),
   ((getAvailabilityStatus_spec 0 _).2.2.1 86400000 (by decide)).1 (by decide),
   (getAvailabilityStatus_spec 0 _).1 rfl rfl rfl⟩

/-- C5: progress formatting yields the Unknown size sentinel when size
is zero, never a division, and otherwise renders
downloaded = size - sizeleft together with
percentage = round(downloaded / size * 100); at size 100 and sizeleft
25 the downloaded amount is 75 and the percentage 75. -/
theorem formatProgress_spec (fmt : Int → String) (size sizeleft : Int) :
    (size = 0 → formatProgress fmt size sizeleft = "Unknown size") ∧
    (size ≠ 0 → formatProgress fmt size sizeleft
      = s!"{fmt (size - sizeleft)} / {fmt size} ({progressPercentage size sizeleft}%)") ∧
    progressPercentage 100 25 = 75 ∧
    formatProgress fmt 100 25 = s!"{fmt 75} / {fmt 100} (75%)" := by
  have hp : progressPercentage 100 25 = 75 := by norm_num [progressPercentage, jsRound]
  refine ⟨fun h => ?_, fun h => ?_, hp, ?_⟩
  · simp [formatProgress, h]
  · simp [formatProgress, h]
  · norm_num [formatProgress, hp]
    simp only [String.append_assoc]
    congr 1

/-- Witness for C5 at concrete inputs: size zero yields the sentinel;
size 100 with sizeleft 25 renders 75 of 100 at 75 percent. -/
theorem formatProgress_spec_witness :
    formatProgress (fun n => toString n) 0 5 = "Unknown size" ∧
    formatProgress (fun n => toString n) 100 25 = "75 / 100 (75%)" :=
  ⟨(formatProgress_spec (fun n => toString n) 0 5).1 rfl,
   (formatProgress_spec (fun n => toString n) 100 25).2.2.2.trans (by decide)⟩

/-- C6 counterexample: a server-supplied timeleft that is present but
empty is not returned — the code treats it as absent and yields the
Unknown sentinel instead. -/
theorem getTimeLeft_counterexample :
    getTimeLeft 0 (some "") none = "Unknown" ∧ ("Unknown" : String) ≠ "" := by
  decide

/-- C6 amended: the formatter returns the server-supplied timeleft
string whenever it is present, non-empty and not the literal
zero-duration sentinel; otherwise, with an estimated completion
timestamp strictly in the future it returns the difference from now
floored to whole hours and minutes, and a completion time at or before
now, or no timestamp at all, yields the Unknown sentinel and never a
negative duration. -/
theorem getTimeLeft_spec (now : Int) (tl : Option String) (ect : Option Int) :
    (∀ t, tl = some t → t ≠ "" → t ≠ "00:00:00" → getTimeLeft now tl ect = t) ∧
    (tl = none ∨ tl = some "" ∨ tl = some "00:00:00" →
      (∀ c, ect = some c → now < c →
        getTimeLeft now tl ect = s!"{(c - now) / 3600000}h {(c - now) % 3600000 / 60000}m") ∧
      (∀ c, ect = some c → c ≤ now → getTimeLeft now tl ect = "Unknown") ∧
      (ect = none → getTimeLeft now tl ect = "Unknown")) := by
  constructor
  · intro t ht h1 h2
    simp [getTimeLeft, ht, h1, h2]
  · intro hfalsy
    have hfall : getTimeLeft now tl ect = timeLeftFallback now ect := by
      rcases hfalsy with h | h | h <;> simp [getTimeLeft, h]
    refine ⟨fun c hc hlt => ?_, fun c hc hle => ?_, fun hn => ?_⟩
    · rw [hfall]
      simp [timeLeftFallback, hc, show (0:Int) < c - now by omega]
    · rw [hfall]
      simp [timeLeftFallback, hc, show ¬((0:Int) < c - now) by omega]
    · rw [hfall]
      simp [timeLeftFallback, hn]

/-- Witness for C6 amended at concrete inputs: a non-sentinel server
string wins; with no server string, a completion two and a half hours
from now renders as 2h 30m and one in the past as Unknown. -/
theorem getTimeLeft_spec_witness :
    getTimeLeft 0 (some "01:30:00") (some 9000000) = "01:30:00" ∧
    getTimeLeft 0 none (some 9000000) = "2h 30m" ∧
    getTimeLeft 0 none (some (-1)) = "Unknown" :=
  ⟨(getTimeLeft_spec 0 (some "01:30:00") (some 9000000)).1 "01:30:00" rfl
      (by decide) (by decide),
   (((getTimeLeft_spec 0 none (some 9000000)).2 (Or.inl rfl)).1 9000000 rfl
      (by decide)).trans (by decide),
   ((getTimeLeft_spec 0 none (some (-1))).2 (Or.inl rfl)).2.1 (-1) rfl (by decide)⟩

/-- C7: addMovie posts the payload assembled from the lookup result and
the four placement parameters; on an HTTP success response it returns
the Movie decoded from the response body — in particular one carrying
the server-assigned id when the decoded record has one — and on every
non-2xx response it fails with an error carrying the response body and
returns no Movie. -/
theorem addMovie_spec (m : MovieLookup) (qpid : Int) (rfp : String) (mon soa : Bool)
    (send : AddMoviePayload → HttpResponse) (decode : String → Movie) :
    (responseOk (send (payloadOf m qpid rfp mon soa)) = true →
      addMovie m qpid rfp mon soa send decode
        = Except.ok (decode (send (payloadOf m qpid rfp mon soa)).body)) ∧
    (responseOk (send (payloadOf m qpid rfp mon soa)) = true →
      ∀ n, (decode (send (payloadOf m qpid rfp mon soa)).body).id = some n →
      ∃ mv, addMovie m qpid rfp mon soa send decode = Except.ok mv ∧ mv.id = some n) ∧
    (responseOk (send (payloadOf m qpid rfp mon soa)) = false →
      addMovie m qpid rfp mon soa send decode
        = Except.error
            s!"HTTP {(send (payloadOf m qpid rfp mon soa)).stat}: {(send (payloadOf m qpid rfp mon soa)).body}" ∧
      ∀ mv, addMovie m qpid rfp mon soa send decode ≠ Except.ok mv) := by
  refine ⟨fun h => ?_, fun h n hn => ?_, fun h => ⟨?_, fun mv hmv => ?_⟩⟩
  · simp [addMovie, h]
  · exact ⟨decode (send (payloadOf m qpid rfp mon soa)).body, by simp [addMovie, h], hn⟩
  · simp [addMovie, h]
  · simp [addMovie, h] at hmv

/-- A sample lookup result used by the C7 witness. -/
def lookupSample : MovieLookup :=
  { title := "Dune", originalTitle := "Dune", sortTitle := "dune",
    lookupStat := "released", overview := "Sand.", inCinemas := some 1631664000000,
    images := [], website := "", year := 2021, runtime := 155,
    imdbId := some "tt1160419", tmdbId := 438631, genres := ["sci-fi"], ratings := [] }

/-- Witness for C7 at concrete transports: a 201 response yields the
decoded movie with its server-assigned id, and a 400 response yields
the error carrying the body and no movie. -/
theorem addMovie_spec_witness :
    addMovie lookupSample 1 "/movies" true true
        (fun _ => { stat := 201, body := "created" })
        (fun _ => { id := some 7, inCinemas := some 1631664000000, digitalRelease := none,
                    physicalRelease := none, monitored := true, hasFile := false })
      = Except.ok { id := some 7, inCinemas := some 1631664000000, digitalRelease := none,
                    physicalRelease := none, monitored := true, hasFile := false } ∧
    addMovie lookupSample 1 "/movies" true true
        (fun _ => { stat := 400, body := "bad request" })
        (fun _ => { id := none, inCinemas := none, digitalRelease := none,
                    physicalRelease := none, monitored := false, hasFile := false })
      = Except.error "HTTP 400: bad request" :=
  ⟨(addMovie_spec lookupSample 1 "/movies" true true
      (fun _ => { stat := 201, body := "created" })
      (fun _ => { id := some 7, inCinemas := some 1631664000000, digitalRelease := none,
                  physicalRelease := none, monitored := true, hasFile := false })).1
      (by decide),
   ((addMovie_spec lookupSample 1 "/movies" true true
      (fun _ => { stat := 400, body := "bad request" })
      (fun _ => { id := none, inCinemas := none, digitalRelease := none,
                  physicalRelease := none, monitored := false, hasFile := false })).2.2
      (by decide)).1.trans (congrArg Except.error (by decide))⟩

/-- C8: testConnection never raises — it is a total Boolean function of
the fetch outcome — returning true exactly when the status request
succeeds with a 2xx response, and false on every non-2xx response and
on every network failure. -/
theorem testConnection_spec (fetchResult : Except String HttpResponse) :
    (∀ r, fetchResult = Except.ok r →
      (testConnection fetchResult = true ↔ 200 ≤ r.stat ∧ r.stat ≤ 299)) ∧
    (∀ e, fetchResult = Except.error e → testConnection fetchResult = false) := by
  refine ⟨fun r hr => ?_, fun e he => ?_⟩
  · subst hr
    simp [testConnection, responseOk]
  · subst he
    rfl

/-- Witness for C8 at concrete outcomes: a 200 response gives true, a
500 response gives false, a network failure gives false. -/
theorem testConnection_spec_witness :
    testConnection (Except.ok { stat := 200, body := "{}" }) = true ∧
    testConnection (Except.ok { stat := 500, body := "" }) = false ∧
    testConnection (Except.error "ECONNREFUSED") = false :=
  ⟨((testConnection_spec (Except.ok { stat := 200, body := "{}" })).1 _ rfl).mpr (by decide),
   by
    have h := (testConnection_spec (Except.ok { stat := 500, body := "" })).1 _ rfl
    have : ¬(200 ≤ 500 ∧ 500 ≤ 299) := by decide
    exact (Bool.not_eq_true _).mp fun hb => this (h.mp hb),
   (testConnection_spec (Except.error "ECONNREFUSED")).2 _ rfl⟩

/-- C9: in the static configuration variant, when the secondary flag is
enabled but any of the secondary name, URL or API key is missing or
empty, resolution succeeds and returns only the primary instance — the
partially configured secondary entry is silently omitted, no error is
raised. -/
theorem getRadarrInstances_secondary_incomplete (p : Preferences)
    (h1 : p.primaryInstanceName ≠ "") (h2 : p.primaryInstanceUrl ≠ "")
    (h3 : p.primaryInstanceApiKey ≠ "")
    (_hen : p.enableSecondaryInstance = some true)
    (hmiss : optTruthy p.secondaryInstanceName = false ∨
      optTruthy p.secondaryInstanceUrl = false ∨
      optTruthy p.secondaryInstanceApiKey = false) :
    getRadarrInstances p = Except.ok [primaryOf p] := by
  have hA : (p.primaryInstanceName == "" || p.primaryInstanceUrl == ""
      || p.primaryInstanceApiKey == "") = false := by simp [h1, h2, h3]
  have hB : (boolTruthy p.enableSecondaryInstance && optTruthy p.secondaryInstanceName
      && optTruthy p.secondaryInstanceUrl && optTruthy p.secondaryInstanceApiKey) = false := by
    rcases hmiss with h | h | h <;> simp [h]
  simp [getRadarrInstances, hA, hB]

/-- Witness for C9 at a concrete configuration: secondary enabled with
an empty secondary name yields only the primary instance. -/
theorem getRadarrInstances_secondary_incomplete_witness :
    getRadarrInstances
        { primaryInstanceName := "Main", primaryInstanceUrl := "http://radarr.local:7878/",
          primaryInstanceApiKey := "key-a", enableSecondaryInstance := some true,
          secondaryInstanceName := some "", secondaryInstanceUrl := some "http://b.local",
          secondaryInstanceApiKey := some "key-b" }
      = Except.ok [primaryOf
        { primaryInstanceName := "Main", primaryInstanceUrl := "http://radarr.local:7878/",
          primaryInstanceApiKey := "key-a", enableSecondaryInstance := some true,
          secondaryInstanceName := some "", secondaryInstanceUrl := some "http://b.local",
          secondaryInstanceApiKey := some "key-b" }] :=
  getRadarrInstances_secondary_incomplete _ (by decide) (by decide) (by decide) rfl
    (Or.inl (by decide))

/-- C10: a primary field that is a non-empty all-whitespace string
passes the falsiness test of resolution, so the primary instance is
produced in the resolved output, while the field-level validation
entry point rejects that very instance with the corresponding
field-specific emptiness error — the blank-field checks of resolution
and validation are inconsistent. -/
theorem resolutionValidationInconsistent (p : Preferences) (urlValid : String → Bool)
    (h1 : p.primaryInstanceName ≠ "") (h2 : p.primaryInstanceUrl ≠ "")
    (h3 : p.primaryInstanceApiKey ≠ "") :
    (∃ rest, getRadarrInstances p = Except.ok (primaryOf p :: rest)) ∧
    (jsTrim p.primaryInstanceName = "" →
      validateRadarrInstance urlValid (primaryOf p)
        = Except.error "Instance name cannot be empty") ∧
    (jsTrim p.primaryInstanceName ≠ "" →
      jsTrim (stripTrailingSlash p.primaryInstanceUrl) = "" →
      validateRadarrInstance urlValid (primaryOf p)
        = Except.error "Instance URL cannot be empty") ∧
    (jsTrim p.primaryInstanceName ≠ "" →
      jsTrim (stripTrailingSlash p.primaryInstanceUrl) ≠ "" →
      jsTrim p.primaryInstanceApiKey = "" →
      validateRadarrInstance urlValid (primaryOf p)
        = Except.error "Instance API key cannot be empty") := by
  have hA : (p.primaryInstanceName == "" || p.primaryInstanceUrl == ""
      || p.primaryInstanceApiKey == "") = false := by simp [h1, h2, h3]
  refine ⟨?_, fun hn => ?_, fun hn hu => ?_, fun hn hu hk => ?_⟩
  · cases hB : (boolTruthy p.enableSecondaryInstance && optTruthy p.secondaryInstanceName
        && optTruthy p.secondaryInstanceUrl && optTruthy p.secondaryInstanceApiKey) with
    | true =>
      exact ⟨[{ name := p.secondaryInstanceName.getD ""
                url := stripTrailingSlash (p.secondaryInstanceUrl.getD "")
                apiKey := p.secondaryInstanceApiKey.getD ""
                isDefault := false }], by simp [getRadarrInstances, hA, hB]⟩
    | false => exact ⟨[], by simp [getRadarrInstances, hA, hB]⟩
  · simp [validateRadarrInstance, primaryOf, hn]
  · simp [validateRadarrInstance, primaryOf, hn, hu]
  · simp [validateRadarrInstance, primaryOf, hn, hu, hk]

/-- Witness for C10 at a concrete configuration whose primary name is a
single space: resolution succeeds and includes the instance, validation
rejects it as empty. -/
theorem resolutionValidationInconsistent_witness :
    getRadarrInstances
        { primaryInstanceName := " ", primaryInstanceUrl := "http://radarr.local:7878",
          primaryInstanceApiKey := "key-a", enableSecondaryInstance := none,
          secondaryInstanceName := none, secondaryInstanceUrl := none,
          secondaryInstanceApiKey := none }
      = Except.ok [primaryOf
        { primaryInstanceName := " ", primaryInstanceUrl := "http://radarr.local:7878",
          primaryInstanceApiKey := "key-a", enableSecondaryInstance := none,
          secondaryInstanceName := none, secondaryInstanceUrl := none,
          secondaryInstanceApiKey := none }] ∧
    validateRadarrInstance (fun _ => true) (primaryOf
        { primaryInstanceName := " ", primaryInstanceUrl := "http://radarr.local:7878",
          primaryInstanceApiKey := "key-a", enableSecondaryInstance := none,
          secondaryInstanceName := none, secondaryInstanceUrl := none,
          secondaryInstanceApiKey := none })
      = Except.error "Instance name cannot be empty" :=
  ⟨by rfl,
   (resolutionValidationInconsistent _ (fun _ => true)
      (by decide) (by decide) (by decide)).2.1 (by decide)⟩
